import Mathlib

/-!
# prs: listing the open pull requests of a user

A shallow embedding of `main.go`.  Go strings are `String`s, errors are
represented by their message, nilable pointer fields are `Option`s, and an
index-out-of-range panic is the `none` of an `Option`.  The two streams are
kept as the list of writes made to them, one entry per `fmt.Fprintln` call.
-/

namespace Prs

/-! ## Library functions used by the program -/

/-- The scanning loop of `strings.Split(s, sep)` for a separator of one
character: `cur` holds the characters of the current piece, newest first. -/
def splitAux (sep : Char) : List Char → List Char → List (List Char)
  | [], cur => [cur.reverse]
  | c :: cs, cur =>
    if c = sep then cur.reverse :: splitAux sep cs []
    else splitAux sep cs (c :: cur)

/-- The call `strings.Split(s, sep)` with `sep` a string of one character. -/
def Split (s : String) (sep : Char) : List String :=
  (splitAux sep s.data []).map String.mk

/-- The call `strings.Count(s, sep)` with `sep` a string of one character. -/
def Count (s : String) (sep : Char) : Nat :=
  s.data.count sep

/-- An operand of a `fmt` call: an integer or a string (an `error` operand
is printed as its message). -/
inductive Arg where
  | int (n : Int)
  | str (s : String)

/-- Decimal rendering of an integer, as the verb `%d` prints it. -/
def fmtInteger (n : Int) : String :=
  if n < 0 then "-" ++ Nat.repr n.natAbs else Nat.repr n.natAbs

/-- Default rendering of an operand (`%d` for integers, `%s` for strings). -/
def Arg.text : Arg → String
  | .int n => fmtInteger n
  | .str s => s

/-- The formatting loop of `fmt.Sprintf` for the verbs `%d` and `%s`: every
other character is copied, a verb consumes the next operand, and a verb
without operand prints `%!d(MISSING)`. -/
def sprintfAux : List Char → List Arg → List Char
  | [], _ => []
  | [c], _ => [c]
  | c :: d :: fs, args =>
    if c = '%' ∧ (d = 'd' ∨ d = 's') then
      match args with
      | a :: rest => a.text.data ++ sprintfAux fs rest
      | [] => ['%', '!', d, '(', 'M', 'I', 'S', 'S', 'I', 'N', 'G', ')'] ++ sprintfAux fs []
    else c :: sprintfAux (d :: fs) args

/-- The call `fmt.Sprintf(format, args...)`. -/
def Sprintf (format : String) (args : List Arg) : String :=
  String.mk (sprintfAux format.data args)

/-- The bytes written by `fmt.Fprintln(w, args...)`: the operands in their
default format, a space between every two of them, and a newline. -/
def Fprintln (args : List Arg) : String :=
  " ".intercalate (args.map Arg.text) ++ "\n"

/-- The calendar date of a `time.Time` in its own location, as `t.Date()`
returns it. -/
structure Date where
  year : Int
  month : Nat
  day : Nat
  deriving DecidableEq, Repr

/-- The zero `time.Time`: January 1 of year 1. -/
def Date.zero : Date := ⟨1, 1, 1⟩

/-- The helper `appendInt(b, x, width)` of package `time`: the decimal
form of `x`, padded with zeros on the left to `width` digits, after a minus
sign when `x` is negative. -/
def appendInt (x : Int) (width : Nat) : String :=
  let digits := Nat.repr x.natAbs
  (if x < 0 then "-" else "") ++ String.mk (List.replicate (width - digits.length) '0') ++ digits

/-- The call `t.Format("2006-01-02")`: a year of four digits, a month and a
day of two digits each. -/
def Date.Format (t : Date) : String :=
  appendInt t.year 4 ++ "-" ++ appendInt (Int.ofNat t.month) 2 ++ "-" ++ appendInt (Int.ofNat t.day) 2

/-! ## Records of the GitHub client -/

/-- The fields of `github.Issue` that the program reads; each is a pointer
in Go and may be nil. -/
structure Issue where
  URL : Option String
  Title : Option String
  Number : Option Int
  CreatedAt : Option Date
  deriving DecidableEq, Repr

/-- Accessor `GetURL`: the empty string when the field is nil. -/
def Issue.GetURL (i : Issue) : String := i.URL.getD ""

/-- Accessor `GetTitle`: the empty string when the field is nil. -/
def Issue.GetTitle (i : Issue) : String := i.Title.getD ""

/-- Accessor `GetNumber`: zero when the field is nil. -/
def Issue.GetNumber (i : Issue) : Int := i.Number.getD 0

/-- Accessor `GetCreatedAt`: the zero time when the field is nil. -/
def Issue.GetCreatedAt (i : Issue) : Date := i.CreatedAt.getD Date.zero

/-- The fields of `github.PullRequest` that the program reads. -/
structure PullRequest where
  ChangedFiles : Option Int
  Additions : Option Int
  Deletions : Option Int
  Comments : Option Int
  deriving DecidableEq, Repr

/-- Accessor `GetChangedFiles` on a `*PullRequest`: zero on a nil receiver
and on a nil field. -/
def GetChangedFiles (pr : Option PullRequest) : Int := (pr.bind (·.ChangedFiles)).getD 0

/-- Accessor `GetAdditions` on a `*PullRequest`. -/
def GetAdditions (pr : Option PullRequest) : Int := (pr.bind (·.Additions)).getD 0

/-- Accessor `GetDeletions` on a `*PullRequest`. -/
def GetDeletions (pr : Option PullRequest) : Int := (pr.bind (·.Deletions)).getD 0

/-- Accessor `GetComments` on a `*PullRequest`. -/
def GetComments (pr : Option PullRequest) : Int := (pr.bind (·.Comments)).getD 0

/-! ## The program -/

/-- The function `extractUserAndRepo`: pieces 4 and 5 of the issue URL split
on `/`; `none` is the index-out-of-range panic of `parts[4]` or `parts[5]`. -/
def extractUserAndRepo (i : Issue) : Option (String × String) :=
  let parts := Split i.GetURL '/'
  match parts[4]?, parts[5]? with
  | some user, some repo => some (user, repo)
  | _, _ => none

/-- The function `printInfo`: the bytes it writes to `w`. -/
def printInfo (u r : String) (i : Issue) (pr : Option PullRequest) : String :=
  let repoPath := u ++ "/" ++ r
  let repoInfo := repoPath ++ " | " ++ i.GetTitle ++ " |"
  let prStats := Sprintf "* %d + %d - %d |"
    [.int (GetChangedFiles pr), .int (GetAdditions pr), .int (GetDeletions pr)]
  let prComments := Sprintf "C %d |" [.int (GetComments pr)]
  let prCreatedAt := i.GetCreatedAt.Format ++ " |"
  let prURL := i.GetURL
  Fprintln [.str repoInfo, .str prStats, .str prComments, .str prCreatedAt, .str prURL]

/-- What the process reads from its surroundings: the values returned by
`os.Getenv` for the two variables (empty when the variable is unset) and
`os.Args`, the program name included. -/
structure Env where
  token : String
  username : String
  Args : List String
  deriving DecidableEq, Repr

/-- The function `validateInput`: the token and the username, or the message
of the error returned. -/
def validateInput (env : Env) : Except String (String × String) :=
  let token := env.token
  if token = "" then
    .error "No access token in env | PRS_GITHUB_ACCESS_TOKEN"
  else
    let username := env.username
    if username = "" then
      if h : env.Args.length ≠ 2 then
        .error "usage: prs [PRS_USERNAME]"
      else
        .ok (token, env.Args[1])
    else
      if h : env.Args.length = 2 then
        .ok (token, env.Args[1])
      else
        .ok (token, username)

/-- The client returned by `setupClient`: it carries the access token, which
is attached to every request. -/
structure Client where
  AccessToken : String
  deriving DecidableEq, Repr

/-- The function `setupClient`. -/
def setupClient (token : String) : Client := ⟨token⟩

/-- A request sent to the GitHub API. -/
inductive Call where
  | Issues (client : Client) (query sort order : String)
  | Get (client : Client) (owner repo : String) (number : Int)
  deriving DecidableEq, Repr

/-- The GitHub API as the program sees it.  `Issues` answers the search with
the issues found or an error.  `Get` answers a pull-request request with the
pair `(pr, err)` that `client.PullRequests.Get` returns; its first argument is
the number of requests sent before this one, so that two equal requests may be
answered differently. -/
structure Remote where
  Issues : Client → String → String → String → Except String (List Issue)
  Get : Nat → Client → String → String → Int → Option PullRequest × Option String

/-- How the process ended: `os.Exit(code)` or a return from `main` (code 0),
or a run-time panic. -/
inductive Status where
  | exited (code : Nat)
  | panicked
  deriving DecidableEq, Repr

/-- The observable behaviour of a run: the writes to standard output and to
standard error made by the program, the requests sent, and how it ended. -/
structure Proc where
  stdout : List String
  stderr : List String
  calls : List Call
  status : Status
  deriving DecidableEq, Repr

/-- The function `retrieveIssuesFor`. -/
def retrieveIssuesFor (net : Remote) (client : Client) (username : String) :
    Except String (List Issue) :=
  net.Issues client (Sprintf "type:pr involves:%s state:open" [.str username]) "created" "asc"

/-- The request sent by `retrieveIssuesFor`. -/
def searchCall (client : Client) (username : String) : Call :=
  .Issues client (Sprintf "type:pr involves:%s state:open" [.str username]) "created" "asc"

/-- The function `fetchPR`, sent as request number `n`. -/
def fetchPR (net : Remote) (client : Client) (n : Nat) (user repo : String) (i : Issue) :
    Option PullRequest × Option String :=
  net.Get n client user repo i.GetNumber

/-- The loop of `main` over `issues.Issues`, from the state `p` reached so
far; when the issues are exhausted `main` returns and the process exits
with status 0. -/
def mainLoop (net : Remote) (client : Client) : List Issue → Proc → Proc
  | [], p => { p with status := .exited 0 }
  | i :: rest, p =>
    match extractUserAndRepo i with
    | none => { p with status := .panicked }
    | some (user, repo) =>
      let res := fetchPR net client p.calls.length user repo i
      let p1 := { p with calls := p.calls ++ [Call.Get client user repo i.GetNumber] }
      let p2 := match res.2 with
        | some err =>
          { p1 with stderr := p1.stderr ++
              [Fprintln [.str "Could not fetch pull request for issue:", .str err]] }
        | none => p1
      mainLoop net client rest { p2 with stdout := p2.stdout ++ [printInfo user repo i res.1] }

/-- The function `main`. -/
def main (env : Env) (net : Remote) : Proc :=
  match validateInput env with
  | .error err => ⟨[], [Fprintln [.str err]], [], .exited 1⟩
  | .ok (token, username) =>
    let client := setupClient token
    match retrieveIssuesFor net client username with
    | .error err =>
      ⟨[], [Fprintln [.str "Could not fetch issues:", .str err]],
        [searchCall client username], .exited 1⟩
    | .ok issues =>
      mainLoop net client issues ⟨[], [], [searchCall client username], .exited 0⟩

/-! ## Auxiliary notions used in the statements -/

/-- The line `printInfo` writes for issue `i` when its pull request is
fetched as request number `n`; the empty string when the URL of `i` makes
`extractUserAndRepo` panic. -/
def lineOf (net : Remote) (client : Client) (n : Nat) (i : Issue) : String :=
  match extractUserAndRepo i with
  | some (user, repo) => printInfo user repo i (fetchPR net client n user repo i).1
  | none => ""

/-- The warning written to standard error for issue `i` when its pull
request is fetched as request number `n`, if that fetch returns an error. -/
def warningOf (net : Remote) (client : Client) (n : Nat) (i : Issue) : Option String :=
  match extractUserAndRepo i with
  | some (user, repo) =>
    (fetchPR net client n user repo i).2.map
      (fun err => "Could not fetch pull request for issue: " ++ err ++ "\n")
  | none => none

/-- The request sent for issue `i`. -/
def callOf (client : Client) (i : Issue) : Option Call :=
  (extractUserAndRepo i).map (fun ur => Call.Get client ur.1 ur.2 i.GetNumber)

/-- A remote that finds the issues `issues` and answers request number `n`
for a pull request with `answers n`. -/
def Remote.fixed (issues : List Issue) (answers : Nat → Option PullRequest × Option String) :
    Remote :=
  ⟨fun _ _ _ _ => .ok issues, fun n _ _ _ _ => answers n⟩

/-! ## Sample data -/

/-- The issue of the sample run: `acme/widgets` number 7. -/
def sampleIssue : Issue :=
  ⟨some "https://api.example.com/repos/acme/widgets/issues/7", some "Fix bug", some 7,
    some ⟨2021, 5, 1⟩⟩

/-- A second issue, in `acme/gadgets`. -/
def otherIssue : Issue :=
  ⟨some "https://api.example.com/repos/acme/gadgets/issues/8", some "Add | pipe", some 8,
    some ⟨2021, 6, 15⟩⟩

/-- An issue without URL. -/
def bareIssue : Issue := ⟨none, some "No URL", some 9, none⟩

/-- The pull request of the sample run. -/
def samplePR : PullRequest := ⟨some 3, some 10, some 2, some 1⟩

/-- An environment with a token, no username variable and one argument. -/
def sampleEnv : Env := ⟨"secret", "", ["prs", "octocat"]⟩

/-- A remote finding two issues, whose second pull-request request (request
number 2) fails. -/
def sampleRemote : Remote :=
  Remote.fixed [sampleIssue, otherIssue]
    (fun n => if n = 2 then (none, some "404 Not Found") else (some samplePR, none))

/-- A remote finding one issue without URL. -/
def bareRemote : Remote :=
  Remote.fixed [bareIssue] (fun _ => (some samplePR, none))

/-- A remote finding an issue without URL followed by the sample issue. -/
def mixedRemote : Remote :=
  Remote.fixed [bareIssue, sampleIssue] (fun _ => (some samplePR, none))

/-! ## Splitting -/

theorem splitAux_length (sep : Char) (s cur : List Char) :
    (splitAux sep s cur).length = s.count sep + 1 := by
  induction s generalizing cur with
  | nil => simp [splitAux]
  | cons c cs ih =>
    by_cases hc : c = sep
    · subst hc
      simp [splitAux, ih]
    · have hne : (c == sep) = false := by simpa using hc
      simp [splitAux, hc, ih, List.count_cons, hne]

theorem splitAux_piece (sep : Char) (p rest cur : List Char) (hp : sep ∉ p) :
    splitAux sep (p ++ sep :: rest) cur = (cur.reverse ++ p) :: splitAux sep rest [] := by
  induction p generalizing cur with
  | nil => simp [splitAux]
  | cons c cs ih =>
    have hc : c ≠ sep := fun h => hp (by simp [h])
    have hcs : sep ∉ cs := fun h => hp (by simp [h])
    simp [splitAux, hc, ih (c :: cur) hcs]

theorem splitAux_last (sep : Char) (p cur : List Char) (hp : sep ∉ p) :
    splitAux sep p cur = [cur.reverse ++ p] := by
  induction p generalizing cur with
  | nil => simp [splitAux]
  | cons c cs ih =>
    have hc : c ≠ sep := fun h => hp (by simp [h])
    have hcs : sep ∉ cs := fun h => hp (by simp [h])
    simp [splitAux, hc, ih (c :: cur) hcs]

theorem Split_length (s : String) (sep : Char) : (Split s sep).length = Count s sep + 1 := by
  simp [Split, Count, splitAux_length]

theorem Split_url (h a r n : String) (hh : '/' ∉ h.data) (ha : '/' ∉ a.data) (hr : '/' ∉ r.data) :
    ∃ rest, Split ("https://" ++ h ++ "/repos/" ++ a ++ "/" ++ r ++ "/issues/" ++ n) '/' =
      "https:" :: "" :: h :: "repos" :: a :: r :: rest := by
  refine ⟨Split ("issues/" ++ n) '/', ?_⟩
  have hshape : ("https://" ++ h ++ "/repos/" ++ a ++ "/" ++ r ++ "/issues/" ++ n).data =
      "https:".data ++ '/' :: ([] ++ '/' :: (h.data ++ '/' :: ("repos".data ++ '/' ::
        (a.data ++ '/' :: (r.data ++ '/' :: ("issues/" ++ n).data))))) := by
    simp [String.data_append]
  simp only [Split, hshape]
  rw [splitAux_piece _ _ _ _ (by decide), splitAux_piece _ _ _ _ (by simp),
    splitAux_piece _ _ _ _ hh, splitAux_piece _ _ _ _ (by decide),
    splitAux_piece _ _ _ _ ha, splitAux_piece _ _ _ _ hr]
  simp


/-! ## Repository extraction -/

theorem extractUserAndRepo_eq_none (i : Issue) :
    extractUserAndRepo i = none ↔ (Split i.GetURL '/').length < 6 := by
  unfold extractUserAndRepo
  generalize Split i.GetURL '/' = parts
  rcases parts with _ | ⟨p0, _ | ⟨p1, _ | ⟨p2, _ | ⟨p3, _ | ⟨p4, _ | ⟨p5, rest⟩⟩⟩⟩⟩⟩ <;> simp

theorem extractUserAndRepo_isSome (i : Issue) :
    (extractUserAndRepo i).isSome ↔ 5 ≤ Count i.GetURL '/' := by
  have h := extractUserAndRepo_eq_none i
  rw [Split_length] at h
  cases hx : extractUserAndRepo i with
  | none => simp [hx] at h ⊢; omega
  | some x => simp [hx] at h ⊢; omega

/-! ## Output formatting -/

theorem printInfo_eq (u r : String) (i : Issue) (pr : Option PullRequest) :
    printInfo u r i pr =
      u ++ "/" ++ r ++ " | " ++ i.GetTitle ++ " | * " ++ fmtInteger (GetChangedFiles pr) ++
        " + " ++ fmtInteger (GetAdditions pr) ++ " - " ++ fmtInteger (GetDeletions pr) ++
        " | C " ++ fmtInteger (GetComments pr) ++ " | " ++ i.GetCreatedAt.Format ++ " | " ++
        i.GetURL ++ "\n" := by
  apply String.ext
  simp [printInfo, Fprintln, Sprintf, sprintfAux, Arg.text, String.intercalate,
    String.intercalate.go, String.data_append]

theorem printInfo_nil (u r : String) (i : Issue) :
    printInfo u r i none =
      u ++ "/" ++ r ++ " | " ++ i.GetTitle ++ " | * 0 + 0 - 0 | C 0 | " ++
        i.GetCreatedAt.Format ++ " | " ++ i.GetURL ++ "\n" := by
  have h0 : fmtInteger 0 = "0" := by decide
  rw [printInfo_eq]
  simp only [GetChangedFiles, GetAdditions, GetDeletions, GetComments, Option.bind,
    Option.getD, h0]
  apply String.ext
  simp [String.data_append]

/-! ## The loop of main -/

theorem mainLoop_eq (net : Remote) (client : Client) (issues : List Issue) (p : Proc)
    (hgood : ∀ i ∈ issues, (extractUserAndRepo i).isSome) :
    mainLoop net client issues p =
      ⟨p.stdout ++ (issues.enumFrom p.calls.length).map (fun x => lineOf net client x.1 x.2),
        p.stderr ++ (issues.enumFrom p.calls.length).filterMap
          (fun x => warningOf net client x.1 x.2),
        p.calls ++ issues.filterMap (callOf client),
        .exited 0⟩ := by
  induction issues generalizing p with
  | nil => simp [mainLoop]
  | cons i rest ih =>
    have hi : (extractUserAndRepo i).isSome := hgood i (by simp)
    have hrest : ∀ j ∈ rest, (extractUserAndRepo j).isSome := fun j hj => hgood j (by simp [hj])
    obtain ⟨⟨user, repo⟩, hur⟩ := Option.isSome_iff_exists.mp hi
    unfold mainLoop
    simp only [hur]
    rw [ih _ hrest]
    cases herr : (fetchPR net client p.calls.length user repo i).2 with
    | none => simp [lineOf, warningOf, callOf, hur, herr]
    | some err =>
      simp [lineOf, warningOf, callOf, hur, herr, Fprintln, Arg.text, String.intercalate,
        String.intercalate.go]


theorem main_eq (env : Env) (net : Remote) (token username : String) (issues : List Issue)
    (hin : validateInput env = .ok (token, username))
    (hsearch : retrieveIssuesFor net (setupClient token) username = .ok issues)
    (hgood : ∀ i ∈ issues, (extractUserAndRepo i).isSome) :
    main env net =
      ⟨(issues.enumFrom 1).map (fun x => lineOf net (setupClient token) x.1 x.2),
        (issues.enumFrom 1).filterMap (fun x => warningOf net (setupClient token) x.1 x.2),
        searchCall (setupClient token) username :: issues.filterMap (callOf (setupClient token)),
        .exited 0⟩ := by
  simp only [main, hin, hsearch]
  rw [mainLoop_eq _ _ _ _ hgood]
  simp

theorem main_stdout_getElem? (env : Env) (net : Remote) (token username : String)
    (issues : List Issue)
    (hin : validateInput env = .ok (token, username))
    (hsearch : retrieveIssuesFor net (setupClient token) username = .ok issues)
    (hgood : ∀ i ∈ issues, (extractUserAndRepo i).isSome) (k : Nat) :
    (main env net).stdout[k]? =
      issues[k]?.map (fun i => lineOf net (setupClient token) (k + 1) i) := by
  rw [main_eq env net token username issues hin hsearch hgood]
  simp only [List.getElem?_map, List.getElem?_enumFrom, Option.map_map, Nat.add_comm 1 k]
  rfl

/-! ## The claims -/

/-- C1: `printInfo` writes the account, the repository, the title, the four
counts in decimal, the date and the URL in the documented layout, ended by a
newline, with the title copied as it is; the sample issue gives the documented
line. -/
theorem printInfo_layout (u r t l : String) (n : Option Int) (date : Date) (f a d c : Int) :
    printInfo u r ⟨some l, some t, n, some date⟩ (some ⟨some f, some a, some d, some c⟩) =
        u ++ "/" ++ r ++ " | " ++ t ++ " | * " ++ fmtInteger f ++ " + " ++ fmtInteger a ++
          " - " ++ fmtInteger d ++ " | C " ++ fmtInteger c ++ " | " ++ date.Format ++ " | " ++
          l ++ "\n" ∧
      printInfo "acme" "widgets" sampleIssue (some samplePR) =
        "acme/widgets | Fix bug | * 3 + 10 - 2 | C 1 | 2021-05-01 | https://api.example.com/repos/acme/widgets/issues/7\n" ∧
      printInfo "acme" "gadgets" otherIssue (some samplePR) =
        "acme/gadgets | Add | pipe | * 3 + 10 - 2 | C 1 | 2021-06-15 | https://api.example.com/repos/acme/gadgets/issues/8\n" := by
  refine ⟨?_, by decide, by decide⟩
  rw [printInfo_eq]
  rfl

/-- C2: for a URL `https://h/repos/a/r/issues/n` in which `h`, `a` and `r`
hold no `/`, `extractUserAndRepo` returns `(a, r)`, the pieces 4 and 5 of the
URL split on `/`. -/
theorem extractUserAndRepo_canonical (i : Issue) (h a r n : String)
    (hh : '/' ∉ h.data) (ha : '/' ∉ a.data) (hr : '/' ∉ r.data)
    (hurl : i.GetURL = "https://" ++ h ++ "/repos/" ++ a ++ "/" ++ r ++ "/issues/" ++ n) :
    extractUserAndRepo i = some (a, r) ∧
      (Split i.GetURL '/')[4]? = some a ∧ (Split i.GetURL '/')[5]? = some r := by
  obtain ⟨rest, hsplit⟩ := Split_url h a r n hh ha hr
  simp [extractUserAndRepo, hurl, hsplit]

/-- Witness of C2: the sample URL yields `acme` and `widgets`. -/
theorem extractUserAndRepo_canonical_witness :
    extractUserAndRepo sampleIssue = some ("acme", "widgets") ∧
      (Split sampleIssue.GetURL '/')[4]? = some "acme" ∧
      (Split sampleIssue.GetURL '/')[5]? = some "widgets" :=
  extractUserAndRepo_canonical sampleIssue "api.example.com" "acme" "widgets" "7"
    (by decide) (by decide) (by decide) (by decide)

/-- C3: with an empty token `validateInput` returns the token error and
`main` writes it to standard error and exits with status 1, having sent no
request and written nothing to standard output; the token error is returned
only for an empty token. -/
theorem missing_token (env : Env) (net : Remote) :
    (env.token = "" →
        validateInput env = .error "No access token in env | PRS_GITHUB_ACCESS_TOKEN" ∧
        main env net =
          ⟨[], ["No access token in env | PRS_GITHUB_ACCESS_TOKEN\n"], [], .exited 1⟩) ∧
      (validateInput env = .error "No access token in env | PRS_GITHUB_ACCESS_TOKEN" →
        env.token = "") := by
  constructor
  · intro h
    have hv : validateInput env = .error "No access token in env | PRS_GITHUB_ACCESS_TOKEN" := by
      simp [validateInput, h]
    refine ⟨hv, ?_⟩
    simp only [main, hv]
    rfl
  · intro h
    by_contra ht
    unfold validateInput at h
    simp only [ht, if_false] at h
    split at h
    · split at h
      · injection h with h
        exact absurd h (by decide)
      · cases h
    · split at h <;> cases h

/-- Witness of C3: no token, a username variable and an argument. -/
theorem missing_token_witness :
    (validateInput ⟨"", "alice", ["prs", "bob"]⟩ =
        .error "No access token in env | PRS_GITHUB_ACCESS_TOKEN" ∧
      main ⟨"", "alice", ["prs", "bob"]⟩ sampleRemote =
        ⟨[], ["No access token in env | PRS_GITHUB_ACCESS_TOKEN\n"], [], .exited 1⟩) ∧
      (⟨"", "alice", ["prs", "bob"]⟩ : Env).token = "" :=
  ⟨(missing_token ⟨"", "alice", ["prs", "bob"]⟩ sampleRemote).1 rfl,
    (missing_token ⟨"", "alice", ["prs", "bob"]⟩ sampleRemote).2 rfl⟩

/-- C4: with a token and no username variable, `validateInput` succeeds
exactly when `os.Args` has length 2, and then returns the argument as the
username; for every other length it returns the usage error. -/
theorem username_from_argument (env : Env) (ht : env.token ≠ "") (hu : env.username = "") :
    ((∃ res, validateInput env = .ok res) ↔ env.Args.length = 2) ∧
      (∀ prog arg, env.Args = [prog, arg] → validateInput env = .ok (env.token, arg)) ∧
      (env.Args.length ≠ 2 → validateInput env = .error "usage: prs [PRS_USERNAME]") := by
  refine ⟨?_, ?_, ?_⟩
  · by_cases hl : env.Args.length = 2
    · simp [validateInput, ht, hu, hl]
    · simp [validateInput, ht, hu, hl]
  · intro prog arg hargs
    simp [validateInput, ht, hu, hargs]
  · intro hl
    simp [validateInput, ht, hu, hl]

/-- Witness of C4: one argument succeeds, none and two give the usage
error. -/
theorem username_from_argument_witness :
    validateInput ⟨"secret", "", ["prs", "octocat"]⟩ = .ok ("secret", "octocat") ∧
      validateInput ⟨"secret", "", ["prs"]⟩ = .error "usage: prs [PRS_USERNAME]" ∧
      validateInput ⟨"secret", "", ["prs", "a", "b"]⟩ = .error "usage: prs [PRS_USERNAME]" :=
  ⟨(username_from_argument ⟨"secret", "", ["prs", "octocat"]⟩ (by decide) rfl).2.1
      "prs" "octocat" rfl,
    (username_from_argument ⟨"secret", "", ["prs"]⟩ (by decide) rfl).2.2 (by decide),
    (username_from_argument ⟨"secret", "", ["prs", "a", "b"]⟩ (by decide) rfl).2.2 (by decide)⟩

/-- C5 fails as stated: with a token, the username variable `alice` and the
two arguments `bob` and `carol`, `validateInput` returns `alice`, not the first
argument `bob`. -/
theorem first_of_two_arguments_ignored :
    validateInput ⟨"secret", "alice", ["prs", "bob", "carol"]⟩ = .ok ("secret", "alice") ∧
      validateInput ⟨"secret", "alice", ["prs", "bob", "carol"]⟩ ≠ .ok ("secret", "bob") := by
  have h : validateInput ⟨"secret", "alice", ["prs", "bob", "carol"]⟩ =
      .ok ("secret", "alice") := rfl
  refine ⟨h, ?_⟩
  rw [h]
  intro hne
  injection hne with hne
  exact absurd hne (by decide)

/-- C5 as amended: with a token and a username variable, when exactly one
command-line argument is given (`os.Args` has length 2) `validateInput`
returns the token with that argument as the username. -/
theorem argument_overrides_variable (env : Env) (ht : env.token ≠ "")
    (hu : env.username ≠ "") (prog arg : String) (hargs : env.Args = [prog, arg]) :
    validateInput env = .ok (env.token, arg) := by
  simp [validateInput, ht, hu, hargs]

/-- Witness of C5 as amended: the argument `bob` replaces the variable
`alice`. -/
theorem argument_overrides_variable_witness :
    validateInput ⟨"secret", "alice", ["prs", "bob"]⟩ = .ok ("secret", "bob") :=
  argument_overrides_variable ⟨"secret", "alice", ["prs", "bob"]⟩ (by decide) (by decide)
    "prs" "bob" rfl

/-- C6: with a token, a username variable and no command-line argument
(`os.Args` has length 1), `validateInput` returns the token and the value of
the variable. -/
theorem variable_without_argument (env : Env) (ht : env.token ≠ "")
    (hu : env.username ≠ "") (hargs : env.Args.length = 1) :
    validateInput env = .ok (env.token, env.username) := by
  simp [validateInput, ht, hu, hargs]

/-- Witness of C6: the variable `alice` is used. -/
theorem variable_without_argument_witness :
    validateInput ⟨"secret", "alice", ["prs"]⟩ = .ok ("secret", "alice") :=
  variable_without_argument ⟨"secret", "alice", ["prs"]⟩ (by decide) (by decide) rfl

/-- C7 fails as stated: when the search returns one issue without URL, `main`
panics before writing anything, so the issue has no output line. -/
theorem no_line_for_issue_without_url :
    retrieveIssuesFor bareRemote (setupClient "secret") "octocat" = .ok [bareIssue] ∧
      (main sampleEnv bareRemote).stdout = [] ∧
      (main sampleEnv bareRemote).stdout.length ≠ [bareIssue].length ∧
      (main sampleEnv bareRemote).status = .panicked := by
  refine ⟨rfl, by decide, by decide, by decide⟩

/-- C7 as amended: when the URL of every issue found holds at least five
`/`, `main` writes one output line per issue whatever the fetches return;
the line of an issue whose fetch returned an error and a nil record shows the
counts `* 0 + 0 - 0 | C 0`; and standard error holds, in order, one warning
for each fetch that returned an error and nothing else. -/
theorem fetch_failure_keeps_line (env : Env) (net : Remote) (token username : String)
    (issues : List Issue)
    (hin : validateInput env = .ok (token, username))
    (hsearch : retrieveIssuesFor net (setupClient token) username = .ok issues)
    (hgood : ∀ i ∈ issues, 5 ≤ Count i.GetURL '/') :
    (main env net).stdout.length = issues.length ∧
      (∀ k i user repo err, issues[k]? = some i → extractUserAndRepo i = some (user, repo) →
        fetchPR net (setupClient token) (k + 1) user repo i = (none, some err) →
        (main env net).stdout[k]? =
          some (user ++ "/" ++ repo ++ " | " ++ i.GetTitle ++ " | * 0 + 0 - 0 | C 0 | " ++
            i.GetCreatedAt.Format ++ " | " ++ i.GetURL ++ "\n")) ∧
      (main env net).stderr =
        (issues.enumFrom 1).filterMap (fun x => warningOf net (setupClient token) x.1 x.2) ∧
      (∀ n i user repo, extractUserAndRepo i = some (user, repo) →
        warningOf net (setupClient token) n i =
          (fetchPR net (setupClient token) n user repo i).2.map
            (fun err => "Could not fetch pull request for issue: " ++ err ++ "\n")) ∧
      (main env net).status = .exited 0 := by
  have hsome : ∀ i ∈ issues, (extractUserAndRepo i).isSome :=
    fun i hi => (extractUserAndRepo_isSome i).mpr (hgood i hi)
  have hmain := main_eq env net token username issues hin hsearch hsome
  refine ⟨?_, ?_, ?_, ?_, ?_⟩
  · rw [hmain]
    simp
  · intro k i user repo err hk hur hfetch
    rw [main_stdout_getElem? env net token username issues hin hsearch hsome k, hk]
    simp only [Option.map_some', lineOf, hur, hfetch, printInfo_nil]
  · rw [hmain]
  · intro n i user repo hur
    simp [warningOf, hur]
  · rw [hmain]

/-- Witness of C7 as amended: two issues, the second fetch fails. -/
theorem fetch_failure_keeps_line_witness :
    (main sampleEnv sampleRemote).stdout.length = 2 ∧
      (main sampleEnv sampleRemote).stdout[1]? =
        some "acme/gadgets | Add | pipe | * 0 + 0 - 0 | C 0 | 2021-06-15 | https://api.example.com/repos/acme/gadgets/issues/8\n" ∧
      (main sampleEnv sampleRemote).stderr =
        ["Could not fetch pull request for issue: 404 Not Found\n"] :=
  have h := fetch_failure_keeps_line sampleEnv sampleRemote "secret" "octocat"
    [sampleIssue, otherIssue] rfl rfl (by decide)
  ⟨h.1, (h.2.1 1 otherIssue "acme" "gadgets" "404 Not Found" rfl rfl rfl).trans (by decide),
    h.2.2.1.trans (by decide)⟩

/-- C8 fails as stated: when the search returns an issue without URL
followed by the sample issue, `main` panics at the first and no line is
written, in particular none for the sample issue. -/
theorem no_line_after_issue_without_url :
    retrieveIssuesFor mixedRemote (setupClient "secret") "octocat" =
        .ok [bareIssue, sampleIssue] ∧
      (main sampleEnv mixedRemote).stdout = [] ∧
      (main sampleEnv mixedRemote).stdout[1]? ≠
        some (printInfo "acme" "widgets" sampleIssue (some samplePR)) := by
  refine ⟨rfl, by decide, by decide⟩

/-- C8 as amended: when the URL of every issue found holds at least five
`/`, standard output holds as many lines as issues were found and its `k`-th
line is the `printInfo` line of the `k`-th issue found, with the account and
repository taken from its URL and the pull request fetched for it. -/
theorem output_in_search_order (env : Env) (net : Remote) (token username : String)
    (issues : List Issue)
    (hin : validateInput env = .ok (token, username))
    (hsearch : retrieveIssuesFor net (setupClient token) username = .ok issues)
    (hgood : ∀ i ∈ issues, 5 ≤ Count i.GetURL '/') :
    (main env net).stdout.length = issues.length ∧
      ∀ k i, issues[k]? = some i →
        ∃ user repo, extractUserAndRepo i = some (user, repo) ∧
          (main env net).stdout[k]? =
            some (printInfo user repo i (fetchPR net (setupClient token) (k + 1) user repo i).1) := by
  have hsome : ∀ i ∈ issues, (extractUserAndRepo i).isSome :=
    fun i hi => (extractUserAndRepo_isSome i).mpr (hgood i hi)
  constructor
  · rw [main_eq env net token username issues hin hsearch hsome]
    simp
  · intro k i hk
    obtain ⟨⟨user, repo⟩, hur⟩ :=
      Option.isSome_iff_exists.mp (hsome i (List.getElem?_mem hk))
    refine ⟨user, repo, hur, ?_⟩
    rw [main_stdout_getElem? env net token username issues hin hsearch hsome k, hk]
    simp [lineOf, hur]

/-- Witness of C8 as amended: the two lines of the sample run, in the order
of the search. -/
theorem output_in_search_order_witness :
    (main sampleEnv sampleRemote).stdout.length = [sampleIssue, otherIssue].length ∧
      (main sampleEnv sampleRemote).stdout =
        ["acme/widgets | Fix bug | * 3 + 10 - 2 | C 1 | 2021-05-01 | https://api.example.com/repos/acme/widgets/issues/7\n",
          "acme/gadgets | Add | pipe | * 0 + 0 - 0 | C 0 | 2021-06-15 | https://api.example.com/repos/acme/gadgets/issues/8\n"] :=
  ⟨(output_in_search_order sampleEnv sampleRemote "secret" "octocat"
      [sampleIssue, otherIssue] rfl rfl (by decide)).1, by decide⟩

/-- C9 fails on the code: an empty command-line argument is returned as the
username without error, with and without a username variable. -/
theorem empty_argument_accepted :
    validateInput ⟨"secret", "", ["prs", ""]⟩ = .ok ("secret", "") ∧
      validateInput ⟨"secret", "alice", ["prs", ""]⟩ = .ok ("secret", "") :=
  ⟨rfl, rfl⟩

/-- C10: `extractUserAndRepo` panics exactly when the URL split on `/` has
fewer than 6 pieces, that is when the URL holds fewer than five `/`, and
returns a pair otherwise; an issue without URL and an empty URL make it
panic. -/
theorem extractUserAndRepo_panics_iff (i : Issue) :
    (extractUserAndRepo i = none ↔ (Split i.GetURL '/').length < 6) ∧
      (Split i.GetURL '/').length = Count i.GetURL '/' + 1 ∧
      (extractUserAndRepo i = none ↔ Count i.GetURL '/' < 5) ∧
      ((∃ user repo, extractUserAndRepo i = some (user, repo)) ↔ 5 ≤ Count i.GetURL '/') ∧
      extractUserAndRepo { i with URL := none } = none ∧
      extractUserAndRepo { i with URL := some "" } = none := by
  have hnone := extractUserAndRepo_eq_none i
  have hlen := Split_length i.GetURL '/'
  have hsome := extractUserAndRepo_isSome i
  refine ⟨hnone, hlen, ?_, ?_, ?_, ?_⟩
  · rw [hnone, hlen]
    omega
  · rw [← hsome, Option.isSome_iff_exists]
    constructor
    · rintro ⟨user, repo, h⟩
      exact ⟨(user, repo), h⟩
    · rintro ⟨⟨user, repo⟩, h⟩
      exact ⟨user, repo, h⟩
  · rfl
  · rfl

end Prs
